import Mathlib

/-!
Shallow embedding of the request-forwarding core of `src/main.py`
(the `ExchangeProxy.make_request` coroutine and the header
sanitization done by `unified_proxy`), together with theorems
checking the specification's claims about it.

Modelling conventions:
* Python dictionaries are association lists `List (String × String)`.
* Machine time is `ℚ`; the two `time.time()` readings taken by
  `make_request` are passed in as parameters `clock` (line 78) and
  `clock2` (line 81).
* The external httpx client is an oracle `Env.outcomes : Nat →
  AttemptOutcome` giving, for each retry attempt, what the network
  interaction did: a response that passed `raise_for_status`, an
  `httpx.HTTPStatusError`, or any other exception (transport error).
* `response.json()` (the Python JSON parser) is the oracle
  `Env.parse : String → Option Json`; `none` models a raised parse
  exception.
* `await asyncio.sleep` calls are recorded in a `Trace` instead of
  actually elapsing; semaphore acquire/release events are recorded
  likewise so that slot accounting can be stated.
-/

/-- Constant MAX_RETRIES = 3 (src/main.py line 33). -/
def MAX_RETRIES : Nat := 3

/-- Constant RATE_LIMIT_DELAY = 0.05 seconds (src/main.py line 34). -/
def RATE_LIMIT_DELAY : ℚ := 1 / 20

/-- Constant MAX_CONCURRENT_REQUESTS = 10 (src/main.py line 35). -/
def MAX_CONCURRENT_REQUESTS : Nat := 10

/-- A Python value supplied in `ProxyRequest.data` / `json_data`:
the source only ever distinguishes `dict` payloads (sent via the
`json=` keyword) from everything else (sent via `data=`); strings
cover the non-dict case for this model. -/
inductive PyData where
  | str (s : String)
  | dict (kvs : List (String × String))
deriving DecidableEq

/-- Python truthiness for the payload values above: empty string and
empty dict are falsy. -/
def PyData.truthy : PyData → Bool
  | .str s => !(s.isEmpty)
  | .dict kvs => !(kvs.isEmpty)

/-- Truthiness of the optional `json_data` field (`None` and `{}` are
falsy). -/
def pyTruthyDict : Option (List (String × String)) → Bool
  | none => false
  | some kvs => !(kvs.isEmpty)

/-- Truthiness of the optional `data` field. -/
def pyTruthyData : Option PyData → Bool
  | none => false
  | some v => v.truthy

/-- The `ProxyRequest` pydantic model (src/main.py lines 43-49). -/
structure ProxyRequest where
  url : String
  method : String := "GET"
  params : Option (List (String × String)) := none
  headers : Option (List (String × String)) := none
  data : Option PyData := none
  json_data : Option (List (String × String)) := none

/-- A parsed JSON document, the abstract result type of the
`response.json()` oracle. -/
inductive Json where
  | null
  | bool (b : Bool)
  | num (n : Int)
  | str (s : String)
  | arr (elems : List Json)
  | obj (fields : List (String × Json))

/-- The `data` field of the result dict: a parsed JSON structure, raw
response text, or Python `None` (the transport-failure result,
src/main.py line 185). -/
inductive RespData where
  | json (j : Json)
  | text (s : String)
  | null

/-- The dict returned by `make_request`.  Keys that are absent on some
paths of the source (`headers`, `error`, `parse_warning`) are
`Option`-valued. -/
structure MakeResult where
  status_code : Nat
  headers : Option (List (String × String))
  data : RespData
  success : Bool
  error : Option String
  method : String
  url : String
  parse_warning : Option String

/-- What the external httpx client did on one attempt:
`success` = the call returned and `raise_for_status` passed (carrying
the response status, headers and text), `statusError` = an
`httpx.HTTPStatusError` was raised (carrying `e.response`), and
`transportError` = any other exception (timeout, connection failure,
DNS failure), carrying `str(e)`. -/
inductive AttemptOutcome where
  | success (status : Nat) (rheaders : List (String × String)) (body : String)
  | statusError (status : Nat) (rheaders : List (String × String)) (body : String)
  | transportError (msg : String)

/-- True iff the attempt did not reach normalization. -/
def AttemptOutcome.isFailure : AttemptOutcome → Bool
  | .success _ _ _ => false
  | _ => true

/-- The environment: per-attempt behaviour of the upstream/client,
and the JSON parser. -/
structure Env where
  outcomes : Nat → AttemptOutcome
  parse : String → Option Json

/-- Body representation of an outbound upstream request: the `json=`
keyword (dict payload), the `data=` keyword (raw payload), or no body
at all (GET/DELETE, or no payload supplied). -/
inductive BodyRep where
  | jsonBody (kvs : List (String × String))
  | rawBody (s : String)
  | noBody
deriving DecidableEq

/-- One outbound request handed to the httpx client. -/
structure OutboundReq where
  url : String
  method : String
  headers : List (String × String)
  params : Option (List (String × String))
  body : BodyRep

/-- Effect trace of one `make_request` call. -/
structure Trace where
  semAcquires : Nat
  semReleases : Nat
  rateSleep : Option ℚ
  attempts : Nat
  sent : List OutboundReq
  backoffs : List Nat

/-- The process-wide globals of src/main.py (lines 39-41) plus the
semaphore's available-slot count. -/
structure GState where
  request_count : Nat
  last_request_time : ℚ
  active_requests : Int
  semAvail : Int

/-- Python `dict.pop(k, None)` on an association list. -/
def dictPop (hs : List (String × String)) (k : String) : List (String × String) :=
  hs.filter (fun p => p.1 ≠ k)

/-- Python `d[k] = v` on an association list: overwrite in place if
the key exists, otherwise append. -/
def dictSet (hs : List (String × String)) (k v : String) : List (String × String) :=
  if hs.any (fun p => p.1 = k) then
    hs.map (fun p => if p.1 = k then (k, v) else p)
  else hs ++ [(k, v)]

/-- Python `base.update(upd)`: caller-supplied values win on key
collision. -/
def dictUpdate (base upd : List (String × String)) : List (String × String) :=
  upd.foldl (fun acc kv => dictSet acc kv.1 kv.2) base

/-- The default outbound header set (src/main.py lines 86-92). -/
def defaultHeaders : List (String × String) :=
  [("User-Agent", "Mozilla/5.0 (Windows NT 10.0; Win64; x64) AppleWebKit/537.36 (KHTML, like Gecko) Chrome/120.0.0.0 Safari/537.36"),
   ("Accept", "application/json, text/plain, */*"),
   ("Accept-Language", "en-US,en;q=0.9"),
   ("Accept-Encoding", "gzip, deflate, br"),
   ("Connection", "keep-alive")]

/-- Lines 94-95: `if proxy_request.headers: request_headers.update(...)`
(updating with an empty dict is the identity, so the truthiness guard
is dropped without changing the function). -/
def requestHeadersOf (r : ProxyRequest) : List (String × String) :=
  match r.headers with
  | none => defaultHeaders
  | some hs => dictUpdate defaultHeaders hs

/-- Lines 97-102: body selection.  Note the source tests Python
truthiness, not presence: `if proxy_request.json_data:` skips an empty
dict, and `elif proxy_request.data:` skips an empty payload. -/
def requestDataOf (r : ProxyRequest) : Option PyData :=
  if pyTruthyDict r.json_data then r.json_data.map PyData.dict
  else if pyTruthyData r.data then r.data
  else none

/-- The list of methods the dispatch chain of lines 109-136 accepts. -/
def supportedMethods : List String := ["GET", "POST", "PUT", "DELETE"]

/-- How `request_data` is put on the wire for POST/PUT (lines
115-130): `json=request_data if isinstance(request_data, dict) else
None, data=request_data if not isinstance(request_data, dict) else
None`. -/
def bodyFor : Option PyData → BodyRep
  | some (.dict kvs) => .jsonBody kvs
  | some (.str s) => .rawBody s
  | none => .noBody

/-- The outbound request built by the dispatch chain (lines 109-136)
for a supported, already-uppercased method.  GET and DELETE pass no
body keywords at all. -/
def mkOutbound (req : ProxyRequest) (method : String)
    (hdrs : List (String × String)) (rdata : Option PyData) : OutboundReq :=
  if method = "GET" then
    { url := req.url, method := method, headers := hdrs, params := req.params, body := .noBody }
  else if method = "POST" then
    { url := req.url, method := method, headers := hdrs, params := req.params, body := bodyFor rdata }
  else if method = "PUT" then
    { url := req.url, method := method, headers := hdrs, params := req.params, body := bodyFor rdata }
  else
    { url := req.url, method := method, headers := hdrs, params := req.params, body := .noBody }

/-- Python `str.upper()` (line 107), on the character list (the
methods involved are ASCII, where `Char.toUpper` agrees with
Python). -/
def pyUpper (s : String) : String := String.mk (s.data.map Char.toUpper)

/-- Python `str.strip()` (line 146): drop leading and trailing
whitespace (for the truthiness test there, only the
all-whitespace/non-whitespace distinction matters). -/
def pyStrip (s : String) : String :=
  String.mk (((s.data.dropWhile Char.isWhitespace).reverse.dropWhile Char.isWhitespace).reverse)

/-- Lines 142-166: response normalization after `raise_for_status`
passed.  `response_data = response.json() if response_text.strip()
else {}`; a parse exception is caught and the raw text returned with
a non-fatal warning (the warning text wraps `str(parse_error)`, which
comes from the runtime and is abstracted to a fixed message here). -/
def normalizeResponse (parse : String → Option Json) (status : Nat)
    (rheaders : List (String × String)) (body : String)
    (method url : String) : MakeResult :=
  if pyStrip body ≠ "" then
    match parse body with
    | some j =>
      { status_code := status, headers := some rheaders, data := .json j,
        success := true, error := none, method := method, url := url,
        parse_warning := none }
    | none =>
      { status_code := status, headers := some rheaders, data := .text body,
        success := true, error := none, method := method, url := url,
        parse_warning := some "JSON parse failed" }
  else
    { status_code := status, headers := some rheaders, data := .json (.obj []),
      success := true, error := none, method := method, url := url,
      parse_warning := none }

/-- The failed result of lines 170-178 (final `httpx.HTTPStatusError`). -/
def statusFailResult (c : Nat) (rh : List (String × String)) (b : String)
    (method url : String) : MakeResult :=
  { status_code := c, headers := some rh, data := .text b, success := false,
    error := some (s!"HTTP {c}: {b}"), method := method, url := url,
    parse_warning := none }

/-- The failed result of lines 183-190 (final generic exception): note
no `headers` key and `data: None`. -/
def transportFailResult (m : String) (method url : String) : MakeResult :=
  { status_code := 500, headers := none, data := .null, success := false,
    error := some m, method := method, url := url, parse_warning := none }

/-- The retry loop, lines 105-191 (`for attempt in range(MAX_RETRIES)`),
with `fuel` = number of iterations left.  Falling off the loop without
returning yields `none` (the Python function would return `None`).
An unsupported method raises `HTTPException(400, ...)` (line 138),
which the blanket `except Exception` (line 181) catches, so it takes
the generic-failure path: backoff and retry, and on the final attempt
a 500 result whose error is `str(e)` = `"400: Unsupported method: M"`
(Starlette's `HTTPException.__str__`). -/
def retryAux (env : Env) (req : ProxyRequest) (rdata : Option PyData)
    (hdrs : List (String × String)) :
    Nat → Nat → Trace → Option MakeResult × Trace
  | 0, _, tr => (none, tr)
  | fuel + 1, attempt, tr =>
    let method := pyUpper req.method
    if supportedMethods.contains method then
      let ob := mkOutbound req method hdrs rdata
      let tr1 := { tr with attempts := tr.attempts + 1, sent := tr.sent ++ [ob] }
      match env.outcomes attempt with
      | .success status rh body =>
        (some (normalizeResponse env.parse status rh body method req.url), tr1)
      | .statusError c rh b =>
        if attempt = MAX_RETRIES - 1 then
          (some (statusFailResult c rh b method req.url), tr1)
        else
          retryAux env req rdata hdrs fuel (attempt + 1)
            { tr1 with backoffs := tr1.backoffs ++ [2 ^ attempt] }
      | .transportError m =>
        if attempt = MAX_RETRIES - 1 then
          (some (transportFailResult m method req.url), tr1)
        else
          retryAux env req rdata hdrs fuel (attempt + 1)
            { tr1 with backoffs := tr1.backoffs ++ [2 ^ attempt] }
    else
      let tr1 := { tr with attempts := tr.attempts + 1 }
      if attempt = MAX_RETRIES - 1 then
        (some (transportFailResult ("400: Unsupported method: " ++ method)
          method req.url), tr1)
      else
        retryAux env req rdata hdrs fuel (attempt + 1)
          { tr1 with backoffs := tr1.backoffs ++ [2 ^ attempt] }

/-- The rate limiter, lines 77-81: `if current_time -
last_request_time < RATE_LIMIT_DELAY: await
asyncio.sleep(RATE_LIMIT_DELAY)`.  Returns the duration slept, if
any. -/
def rateLimitSleep (current_time last_time : ℚ) : Option ℚ :=
  if current_time - last_time < RATE_LIMIT_DELAY then some RATE_LIMIT_DELAY
  else none

/-- The trace at entry to the retry loop: one semaphore slot taken,
the rate-limit sleep (if any) recorded, nothing dispatched yet. -/
def initTrace (rs : Option ℚ) : Trace :=
  { semAcquires := 1, semReleases := 0, rateSleep := rs,
    attempts := 0, sent := [], backoffs := [] }

/-- The coroutine `ExchangeProxy.make_request` (src/main.py lines 69-193).
`clock` and `clock2` are the two `time.time()` readings (lines 78 and
81).  Returns the result, the final global state, and the effect
trace.  The `async with self.semaphore` scope is the acquire at the
top and the release after the `finally` (lines 73 and 192-193). -/
def make_request (env : Env) (clock clock2 : ℚ) (st : GState)
    (req : ProxyRequest) : Option MakeResult × GState × Trace :=
  let st1 : GState := { st with semAvail := st.semAvail - 1 }
  let st2 : GState := { st1 with active_requests := st1.active_requests + 1 }
  let rsleep : Option ℚ := rateLimitSleep clock st2.last_request_time
  let st3 : GState := { st2 with last_request_time := clock2 }
  let st4 : GState := { st3 with request_count := st3.request_count + 1 }
  let hdrs := requestHeadersOf req
  let rdata := requestDataOf req
  let tr0 : Trace := initTrace rsleep
  let out := retryAux env req rdata hdrs MAX_RETRIES 0 tr0
  let st5 : GState := { st4 with active_requests := st4.active_requests - 1 }
  let st6 : GState := { st5 with semAvail := st5.semAvail + 1 }
  (out.1, st6, { out.2 with semReleases := out.2.semReleases + 1 })

/-- Header sanitization done by `unified_proxy` on a successful result
(src/main.py lines 222-236): pop the two spellings of each
problematic header, then set the four provenance headers. -/
def sanitizeHeaders (hs : List (String × String)) (method url : String)
    (active : Int) : List (String × String) :=
  let h1 := dictPop hs "content-length"
  let h2 := dictPop h1 "Content-Length"
  let h3 := dictPop h2 "transfer-encoding"
  let h4 := dictPop h3 "Transfer-Encoding"
  let h5 := dictPop h4 "content-encoding"
  let h6 := dictPop h5 "Content-Encoding"
  let h7 := dictSet h6 "X-Proxy-Status" "success"
  let h8 := dictSet h7 "X-Proxy-Method" method
  let h9 := dictSet h8 "X-Proxy-URL" url
  dictSet h9 "X-Proxy-Active-Requests" (toString active)

/-- The result returned when the final retry attempt fails: the two
`except` arms of the last iteration (src/main.py lines 168-191). -/
def finalFailResult (o : AttemptOutcome) (method url : String) : Option MakeResult :=
  match o with
  | .statusError c rh b => some (statusFailResult c rh b method url)
  | .transportError m => some (transportFailResult m method url)
  | .success _ _ _ => none

/-- ASCII lowercasing, modelling case-insensitive header-key
comparison. -/
def lowerKey (s : String) : String := String.mk (s.data.map Char.toLower)

/-- The transport-specific headers the proxy must strip
(case-insensitively) before relaying a response. -/
def hopByHopKeys : List String :=
  ["content-length", "transfer-encoding", "content-encoding"]

/-- A concrete global state for evaluations and witnesses. -/
def stInit : GState :=
  { request_count := 7, last_request_time := 0, active_requests := 2, semAvail := 10 }

/-- An upstream that always succeeds with an empty body. -/
def envSuccess : Env :=
  { outcomes := fun _ => .success 200 [] "", parse := fun _ => none }

/-- An upstream that always raises a transport error. -/
def envDown : Env :=
  { outcomes := fun _ => .transportError "boom", parse := fun _ => none }

/-- An upstream that always returns HTTP 503. -/
def envBad : Env :=
  { outcomes := fun _ => .statusError 503 [("retry-after", "1")] "down",
    parse := fun _ => none }

/-- A request with an unsupported method. -/
def reqPatch : ProxyRequest :=
  { url := "http://upstream.example/api", method := "PATCH" }

/-- A request with a lowercase supported method. -/
def reqGet : ProxyRequest :=
  { url := "http://upstream.example/api", method := "get" }

/-- A request carrying an empty structured payload together with a
non-empty opaque payload. -/
def reqC8 : ProxyRequest :=
  { url := "http://u", method := "POST", data := some (.str "payload"),
    json_data := some [] }

/-- The retry loop never touches the semaphore-acquire count. -/
theorem retryAux_semAcquires (env : Env) (req : ProxyRequest) (rdata : Option PyData)
    (hdrs : List (String × String)) :
    ∀ fuel attempt tr,
      ((retryAux env req rdata hdrs fuel attempt tr).2).semAcquires = tr.semAcquires := by
  intro fuel
  induction fuel with
  | zero => intro attempt tr; rfl
  | succ fuel ih =>
    intro attempt tr
    simp only [retryAux]
    split
    · split
      · rfl
      · split
        · rfl
        · simp [ih]
      · split
        · rfl
        · simp [ih]
    · split
      · rfl
      · simp [ih]

/-- The retry loop never touches the semaphore-release count. -/
theorem retryAux_semReleases (env : Env) (req : ProxyRequest) (rdata : Option PyData)
    (hdrs : List (String × String)) :
    ∀ fuel attempt tr,
      ((retryAux env req rdata hdrs fuel attempt tr).2).semReleases = tr.semReleases := by
  intro fuel
  induction fuel with
  | zero => intro attempt tr; rfl
  | succ fuel ih =>
    intro attempt tr
    simp only [retryAux]
    split
    · split
      · rfl
      · split
        · rfl
        · simp [ih]
      · split
        · rfl
        · simp [ih]
    · split
      · rfl
      · simp [ih]

/-- The retry loop never touches the recorded rate-limit sleep. -/
theorem retryAux_rateSleep (env : Env) (req : ProxyRequest) (rdata : Option PyData)
    (hdrs : List (String × String)) :
    ∀ fuel attempt tr,
      ((retryAux env req rdata hdrs fuel attempt tr).2).rateSleep = tr.rateSleep := by
  intro fuel
  induction fuel with
  | zero => intro attempt tr; rfl
  | succ fuel ih =>
    intro attempt tr
    simp only [retryAux]
    split
    · split
      · rfl
      · split
        · rfl
        · simp [ih]
      · split
        · rfl
        · simp [ih]
    · split
      · rfl
      · simp [ih]

/-- Behaviour of the retry loop when every remaining attempt fails:
it runs all remaining iterations, sleeps `2 ^ attempt` between
consecutive ones, and returns the failure result shaped by the final
attempt's exception. -/
theorem retryAux_all_fail (env : Env) (req : ProxyRequest) (rdata : Option PyData)
    (hdrs : List (String × String))
    (hm : supportedMethods.contains (pyUpper req.method) = true) :
    ∀ fuel attempt tr, attempt + fuel = MAX_RETRIES → 1 ≤ fuel →
      (∀ i, attempt ≤ i → i < MAX_RETRIES → (env.outcomes i).isFailure = true) →
      (retryAux env req rdata hdrs fuel attempt tr).1 =
        finalFailResult (env.outcomes (MAX_RETRIES - 1)) (pyUpper req.method) req.url ∧
      ((retryAux env req rdata hdrs fuel attempt tr).2).sent.length = tr.sent.length + fuel ∧
      ((retryAux env req rdata hdrs fuel attempt tr).2).attempts = tr.attempts + fuel ∧
      ((retryAux env req rdata hdrs fuel attempt tr).2).backoffs =
        tr.backoffs ++ (List.range' attempt (fuel - 1)).map (fun i => 2 ^ i) := by
  intro fuel
  induction fuel with
  | zero => intro attempt tr h1 h2; omega
  | succ fuel ih =>
    intro attempt tr hsum _ hfail
    have hfa : (env.outcomes attempt).isFailure = true :=
      hfail attempt (Nat.le_refl _) (by omega)
    simp only [retryAux, hm, if_true]
    cases ho : env.outcomes attempt with
    | success s rh b => rw [ho] at hfa; simp [AttemptOutcome.isFailure] at hfa
    | statusError c rh b =>
      dsimp only
      by_cases hA : attempt = MAX_RETRIES - 1
      · have hf0 : fuel = 0 := by simp [MAX_RETRIES] at hsum hA; omega
        subst hf0
        rw [if_pos hA, ← hA, ho]
        exact ⟨rfl, by simp, by simp, by simp⟩
      · have hf1 : 1 ≤ fuel := by simp [MAX_RETRIES] at hsum hA ⊢; omega
        rw [if_neg hA]
        obtain ⟨g, rfl⟩ : ∃ g, fuel = g + 1 := ⟨fuel - 1, by omega⟩
        obtain ⟨e1, e2, e3, e4⟩ := ih (attempt + 1)
          { tr with attempts := tr.attempts + 1,
                    sent := tr.sent ++ [mkOutbound req (pyUpper req.method) hdrs rdata],
                    backoffs := tr.backoffs ++ [2 ^ attempt] }
          (by omega) (by omega) (fun i hi hi2 => hfail i (by omega) hi2)
        refine ⟨e1, by simp [e2]; omega, by simp [e3]; omega, ?_⟩
        rw [e4]
        simp [List.range'_succ]
    | transportError m =>
      dsimp only
      by_cases hA : attempt = MAX_RETRIES - 1
      · have hf0 : fuel = 0 := by simp [MAX_RETRIES] at hsum hA; omega
        subst hf0
        rw [if_pos hA, ← hA, ho]
        exact ⟨rfl, by simp, by simp, by simp⟩
      · have hf1 : 1 ≤ fuel := by simp [MAX_RETRIES] at hsum hA ⊢; omega
        rw [if_neg hA]
        obtain ⟨g, rfl⟩ : ∃ g, fuel = g + 1 := ⟨fuel - 1, by omega⟩
        obtain ⟨e1, e2, e3, e4⟩ := ih (attempt + 1)
          { tr with attempts := tr.attempts + 1,
                    sent := tr.sent ++ [mkOutbound req (pyUpper req.method) hdrs rdata],
                    backoffs := tr.backoffs ++ [2 ^ attempt] }
          (by omega) (by omega) (fun i hi hi2 => hfail i (by omega) hi2)
        refine ⟨e1, by simp [e2]; omega, by simp [e3]; omega, ?_⟩
        rw [e4]
        simp [List.range'_succ]

/-- Every outbound request recorded by the retry loop is the single
request built once from the (uppercased) method, merged headers and
selected payload. -/
theorem retryAux_sent_mem (env : Env) (req : ProxyRequest) (rdata : Option PyData)
    (hdrs : List (String × String)) :
    ∀ fuel attempt tr ob, ob ∈ ((retryAux env req rdata hdrs fuel attempt tr).2).sent →
      ob ∈ tr.sent ∨ ob = mkOutbound req (pyUpper req.method) hdrs rdata := by
  intro fuel
  induction fuel with
  | zero => intro attempt tr ob h; exact Or.inl h
  | succ fuel ih =>
    intro attempt tr ob h
    simp only [retryAux] at h
    by_cases hs : supportedMethods.contains (pyUpper req.method) = true
    · rw [if_pos hs] at h
      cases ho : env.outcomes attempt with
      | success s rh b =>
        rw [ho] at h
        dsimp only at h
        rcases List.mem_append.mp h with h1 | h1
        · exact Or.inl h1
        · exact Or.inr (List.mem_singleton.mp h1)
      | statusError c rh b =>
        rw [ho] at h
        dsimp only at h
        by_cases hA : attempt = MAX_RETRIES - 1
        · rw [if_pos hA] at h
          rcases List.mem_append.mp h with h1 | h1
          · exact Or.inl h1
          · exact Or.inr (List.mem_singleton.mp h1)
        · rw [if_neg hA] at h
          rcases ih _ _ _ h with h1 | h1
          · dsimp only at h1
            rcases List.mem_append.mp h1 with h2 | h2
            · exact Or.inl h2
            · exact Or.inr (List.mem_singleton.mp h2)
          · exact Or.inr h1
      | transportError m =>
        rw [ho] at h
        dsimp only at h
        by_cases hA : attempt = MAX_RETRIES - 1
        · rw [if_pos hA] at h
          rcases List.mem_append.mp h with h1 | h1
          · exact Or.inl h1
          · exact Or.inr (List.mem_singleton.mp h1)
        · rw [if_neg hA] at h
          rcases ih _ _ _ h with h1 | h1
          · dsimp only at h1
            rcases List.mem_append.mp h1 with h2 | h2
            · exact Or.inl h2
            · exact Or.inr (List.mem_singleton.mp h2)
          · exact Or.inr h1
    · rw [if_neg hs] at h
      by_cases hA : attempt = MAX_RETRIES - 1
      · rw [if_pos hA] at h
        exact Or.inl h
      · rw [if_neg hA] at h
        rcases ih _ _ _ h with h1 | h1
        · exact Or.inl h1
        · exact Or.inr h1

/-- On a supported method, every loop iteration dispatches exactly one
upstream request: sent-count and attempt-count advance in lockstep,
and at least one iteration runs when fuel is available. -/
theorem retryAux_counts (env : Env) (req : ProxyRequest) (rdata : Option PyData)
    (hdrs : List (String × String))
    (hm : supportedMethods.contains (pyUpper req.method) = true) :
    ∀ fuel attempt tr,
      ((retryAux env req rdata hdrs fuel attempt tr).2).sent.length + tr.attempts =
        ((retryAux env req rdata hdrs fuel attempt tr).2).attempts + tr.sent.length ∧
      tr.attempts + min fuel 1 ≤ ((retryAux env req rdata hdrs fuel attempt tr).2).attempts := by
  intro fuel
  induction fuel with
  | zero => intro attempt tr; exact ⟨Nat.add_comm _ _, by simp [retryAux]⟩
  | succ fuel ih =>
    intro attempt tr
    simp only [retryAux, hm, if_true]
    cases ho : env.outcomes attempt with
    | success s rh b =>
      dsimp only
      refine ⟨by simp; try omega, by simp; try omega⟩
    | statusError c rh b =>
      dsimp only
      by_cases hA : attempt = MAX_RETRIES - 1
      · rw [if_pos hA]
        refine ⟨by simp; try omega, by simp; try omega⟩
      · rw [if_neg hA]
        obtain ⟨e1, e2⟩ := ih (attempt + 1)
          { tr with attempts := tr.attempts + 1,
                    sent := tr.sent ++ [mkOutbound req (pyUpper req.method) hdrs rdata],
                    backoffs := tr.backoffs ++ [2 ^ attempt] }
        refine ⟨by simp at e1 ⊢; omega, by simp at e2 ⊢; omega⟩
    | transportError m =>
      dsimp only
      by_cases hA : attempt = MAX_RETRIES - 1
      · rw [if_pos hA]
        refine ⟨by simp; try omega, by simp; try omega⟩
      · rw [if_neg hA]
        obtain ⟨e1, e2⟩ := ih (attempt + 1)
          { tr with attempts := tr.attempts + 1,
                    sent := tr.sent ++ [mkOutbound req (pyUpper req.method) hdrs rdata],
                    backoffs := tr.backoffs ++ [2 ^ attempt] }
        refine ⟨by simp at e1 ⊢; omega, by simp at e2 ⊢; omega⟩

/-- The outbound request always carries the method it was built with. -/
theorem mkOutbound_method (req : ProxyRequest) (m : String)
    (hdrs : List (String × String)) (rdata : Option PyData) :
    (mkOutbound req m hdrs rdata).method = m := by
  unfold mkOutbound
  split
  · rfl
  · split
    · rfl
    · split
      · rfl
      · rfl

/-- Unfolding of `make_request` into its retry-loop call and final
state, used by the claim proofs below. -/
theorem make_request_run (env : Env) (clock clock2 : ℚ) (st : GState)
    (req : ProxyRequest) :
    make_request env clock clock2 st req =
      ((retryAux env req (requestDataOf req) (requestHeadersOf req) MAX_RETRIES 0
          (initTrace (rateLimitSleep clock st.last_request_time))).1,
       { request_count := st.request_count + 1, last_request_time := clock2,
         active_requests := st.active_requests + 1 - 1,
         semAvail := st.semAvail - 1 + 1 },
       { (retryAux env req (requestDataOf req) (requestHeadersOf req) MAX_RETRIES 0
          (initTrace (rateLimitSleep clock st.last_request_time))).2 with
         semReleases := (retryAux env req (requestDataOf req) (requestHeadersOf req)
           MAX_RETRIES 0
           (initTrace (rateLimitSleep clock st.last_request_time))).2.semReleases + 1 }) :=
  rfl

/-- C2: on every exit path of `make_request` the admission slot is
released exactly once (one acquire, one release) and both
`active_requests` and the semaphore's available-slot count return to
their pre-call values. -/
theorem C2_admission_slot_released (env : Env) (clock clock2 : ℚ)
    (st : GState) (req : ProxyRequest) :
    ((make_request env clock clock2 st req).2.1).active_requests = st.active_requests ∧
    ((make_request env clock clock2 st req).2.1).semAvail = st.semAvail ∧
    ((make_request env clock clock2 st req).2.2).semAcquires = 1 ∧
    ((make_request env clock clock2 st req).2.2).semReleases = 1 := by
  rw [make_request_run]
  refine ⟨by simp, by simp, ?_, ?_⟩
  · simp [retryAux_semAcquires, initTrace]
  · simp [retryAux_semReleases, initTrace]

/-- C3: when every attempt fails, the loop makes exactly `MAX_RETRIES`
upstream attempts, the backoff slept after failed attempt `i` is
`2 ^ i`, and the total backoff is at least `1 + 2 + ... +
2 ^ (MAX_RETRIES - 2)`. -/
theorem C3_exhausted_retry_backoff (env : Env) (clock clock2 : ℚ) (st : GState)
    (req : ProxyRequest)
    (hm : supportedMethods.contains (pyUpper req.method) = true)
    (hfail : ∀ i, i < MAX_RETRIES → (env.outcomes i).isFailure = true) :
    ((make_request env clock clock2 st req).2.2).sent.length = MAX_RETRIES ∧
    ((make_request env clock clock2 st req).2.2).backoffs =
      (List.range (MAX_RETRIES - 1)).map (fun i => 2 ^ i) ∧
    ((List.range (MAX_RETRIES - 1)).map (fun i => 2 ^ i)).sum ≤
      ((make_request env clock clock2 st req).2.2).backoffs.sum := by
  obtain ⟨h1, h2, h3, h4⟩ := retryAux_all_fail env req (requestDataOf req)
    (requestHeadersOf req) hm MAX_RETRIES 0
    (initTrace (rateLimitSleep clock st.last_request_time))
    (by simp) (by decide) (fun i _ hi => hfail i hi)
  have hbe : ((make_request env clock clock2 st req).2.2).backoffs =
      (List.range (MAX_RETRIES - 1)).map (fun i => 2 ^ i) := by
    rw [make_request_run, List.range_eq_range']
    simpa [initTrace] using h4
  refine ⟨?_, hbe, by rw [hbe]⟩
  rw [make_request_run]
  simpa [initTrace] using h2

/-- C5: with retries exhausted, a final `httpx.HTTPStatusError` yields
a failed result carrying the upstream's own status code, headers and
body (in the error detail), while a final transport error yields a
failed result with status 500 and the local error description. -/
theorem C5_failure_kinds (env : Env) (clock clock2 : ℚ) (st : GState)
    (req : ProxyRequest)
    (hm : supportedMethods.contains (pyUpper req.method) = true)
    (hfail : ∀ i, i < MAX_RETRIES → (env.outcomes i).isFailure = true) :
    (∀ c rh b, env.outcomes (MAX_RETRIES - 1) = .statusError c rh b →
      (make_request env clock clock2 st req).1 =
        some { status_code := c, headers := some rh, data := .text b,
               success := false, error := some (s!"HTTP {c}: {b}"),
               method := pyUpper req.method, url := req.url,
               parse_warning := none }) ∧
    (∀ m, env.outcomes (MAX_RETRIES - 1) = .transportError m →
      (make_request env clock clock2 st req).1 =
        some { status_code := 500, headers := none, data := .null,
               success := false, error := some m,
               method := pyUpper req.method, url := req.url,
               parse_warning := none }) := by
  obtain ⟨h1, -, -, -⟩ := retryAux_all_fail env req (requestDataOf req)
    (requestHeadersOf req) hm MAX_RETRIES 0
    (initTrace (rateLimitSleep clock st.last_request_time))
    (by simp) (by decide) (fun i _ hi => hfail i hi)
  rw [make_request_run]
  constructor
  · intro c rh b he
    dsimp only
    rw [h1, he]
    rfl
  · intro m he
    dsimp only
    rw [h1, he]
    rfl

/-- C5 witness: an upstream answering 503 with a body on all attempts
produces the 503-carrying failed result. -/
theorem C5_failure_kinds_witness :
    (make_request envBad 0 1 stInit reqGet).1 =
      some { status_code := 503, headers := some [("retry-after", "1")],
             data := .text "down", success := false,
             error := some "HTTP 503: down", method := "GET",
             url := "http://upstream.example/api", parse_warning := none } :=
  (C5_failure_kinds envBad 0 1 stInit reqGet (by decide) (fun i _ => rfl)).1
    503 [("retry-after", "1")] "down" rfl

/-- C3 witness: concrete all-failing run. -/
theorem C3_exhausted_retry_backoff_witness :
    supportedMethods.contains (pyUpper reqGet.method) = true ∧
    ((make_request envDown 0 1 stInit reqGet).2.2).sent.length = MAX_RETRIES ∧
    ((make_request envDown 0 1 stInit reqGet).2.2).backoffs =
      (List.range (MAX_RETRIES - 1)).map (fun i => 2 ^ i) :=
  ⟨by decide,
   (C3_exhausted_retry_backoff envDown 0 1 stInit reqGet (by decide) (fun i _ => rfl)).1,
   (C3_exhausted_retry_backoff envDown 0 1 stInit reqGet (by decide) (fun i _ => rfl)).2.1⟩

/-- C4 (amended): when the elapsed time since the last recorded
dispatch is below the minimum interval, the rate limiter suspends for
the full `RATE_LIMIT_DELAY` (not the remaining difference), otherwise
it does not sleep; in both cases the new dispatch timestamp (the
second clock reading) is recorded. -/
theorem C4_rate_limit_full_delay (env : Env) (clock clock2 : ℚ) (st : GState)
    (req : ProxyRequest) :
    (clock - st.last_request_time < RATE_LIMIT_DELAY →
      ((make_request env clock clock2 st req).2.2).rateSleep = some RATE_LIMIT_DELAY) ∧
    (¬ clock - st.last_request_time < RATE_LIMIT_DELAY →
      ((make_request env clock clock2 st req).2.2).rateSleep = none) ∧
    ((make_request env clock clock2 st req).2.1).last_request_time = clock2 := by
  rw [make_request_run]
  refine ⟨?_, ?_, rfl⟩
  · intro h
    simp [retryAux_rateSleep, initTrace, rateLimitSleep, h]
  · intro h
    simp [retryAux_rateSleep, initTrace, rateLimitSleep, h]

/-- C4 counterexample: with elapsed time 3/100 (< 1/20 = RATE_LIMIT_DELAY)
the recorded sleep is the full RATE_LIMIT_DELAY, not the remaining
difference RATE_LIMIT_DELAY - 3/100. -/
theorem C4_counterexample :
    (3 / 100 : ℚ) - stInit.last_request_time < RATE_LIMIT_DELAY ∧
    ((make_request envSuccess (3 / 100) (4 / 100) stInit reqGet).2.2).rateSleep ≠
      some (RATE_LIMIT_DELAY - ((3 / 100 : ℚ) - stInit.last_request_time)) := by
  have he : (3 / 100 : ℚ) - stInit.last_request_time < RATE_LIMIT_DELAY := by
    norm_num [stInit, RATE_LIMIT_DELAY]
  refine ⟨he, ?_⟩
  rw [make_request_run]
  have hr := retryAux_rateSleep envSuccess reqGet (requestDataOf reqGet)
    (requestHeadersOf reqGet) MAX_RETRIES 0
    (initTrace (rateLimitSleep (3 / 100) stInit.last_request_time))
  dsimp only
  rw [hr]
  simp only [initTrace, rateLimitSleep, if_pos he]
  intro hcon
  have := Option.some.inj hcon
  rw [stInit] at this
  norm_num [RATE_LIMIT_DELAY] at this

/-- C4 witness for the amended claim. -/
theorem C4_rate_limit_full_delay_witness :
    ((0 : ℚ) - stInit.last_request_time < RATE_LIMIT_DELAY) ∧
    ((make_request envSuccess 0 1 stInit reqGet).2.2).rateSleep = some RATE_LIMIT_DELAY ∧
    ((make_request envSuccess 0 1 stInit reqGet).2.1).last_request_time = 1 :=
  ⟨by norm_num [stInit, RATE_LIMIT_DELAY],
   (C4_rate_limit_full_delay envSuccess 0 1 stInit reqGet).1
     (by norm_num [stInit, RATE_LIMIT_DELAY]),
   (C4_rate_limit_full_delay envSuccess 0 1 stInit reqGet).2.2⟩

/-- C1 (code evaluation): for the unsupported method PATCH the code
does NOT fail fast: it contacts no upstream (sent is empty) but runs
all `MAX_RETRIES` loop iterations, sleeps backoffs 1 and 2 between
them, performs the rate-limit sleep, holds the admission slot
throughout, and finally returns a 500 transport-style failure whose
error text wraps the swallowed 400 validation message. -/
theorem C1_unsupported_method_eval :
    (make_request envSuccess 0 0 stInit reqPatch).1 =
      some (transportFailResult "400: Unsupported method: PATCH" "PATCH"
        "http://upstream.example/api") ∧
    ((make_request envSuccess 0 0 stInit reqPatch).2.2).sent.length = 0 ∧
    ((make_request envSuccess 0 0 stInit reqPatch).2.2).attempts = MAX_RETRIES ∧
    ((make_request envSuccess 0 0 stInit reqPatch).2.2).backoffs = [1, 2] ∧
    ((make_request envSuccess 0 0 stInit reqPatch).2.2).rateSleep = some RATE_LIMIT_DELAY := by
  refine ⟨rfl, rfl, rfl, rfl, ?_⟩
  rw [make_request_run]
  have hr := retryAux_rateSleep envSuccess reqPatch (requestDataOf reqPatch)
    (requestHeadersOf reqPatch) MAX_RETRIES 0
    (initTrace (rateLimitSleep 0 stInit.last_request_time))
  dsimp only
  rw [hr]
  simp only [initTrace, rateLimitSleep]
  rw [if_pos (by norm_num [stInit, RATE_LIMIT_DELAY])]

/-- C6: after a successful attempt, a blank body yields an empty
structured object, a parseable body yields the parsed structure, and
an unparseable body yields the raw text plus a non-fatal parse
warning; all three cases keep `success = true`. -/
theorem C6_response_normalization (parse : String → Option Json) (status : Nat)
    (rh : List (String × String)) (body method url : String) :
    (pyStrip body = "" →
      normalizeResponse parse status rh body method url =
        { status_code := status, headers := some rh, data := .json (.obj []),
          success := true, error := none, method := method, url := url,
          parse_warning := none }) ∧
    (∀ j, pyStrip body ≠ "" → parse body = some j →
      normalizeResponse parse status rh body method url =
        { status_code := status, headers := some rh, data := .json j,
          success := true, error := none, method := method, url := url,
          parse_warning := none }) ∧
    (pyStrip body ≠ "" → parse body = none →
      normalizeResponse parse status rh body method url =
        { status_code := status, headers := some rh, data := .text body,
          success := true, error := none, method := method, url := url,
          parse_warning := some "JSON parse failed" }) := by
  refine ⟨?_, ?_, ?_⟩
  · intro h
    simp [normalizeResponse, h]
  · intro j h hp
    simp [normalizeResponse, h, hp]
  · intro h hp
    simp [normalizeResponse, h, hp]

/-- C6 witness: non-JSON text comes back raw, successful, with a
parse warning. -/
theorem C6_response_normalization_witness :
    pyStrip "not json" ≠ "" ∧
    normalizeResponse (fun _ => none) 200 [] "not json" "GET" "http://u" =
      { status_code := 200, headers := some [], data := .text "not json",
        success := true, error := none, method := "GET", url := "http://u",
        parse_warning := some "JSON parse failed" } :=
  ⟨by decide,
   (C6_response_normalization (fun _ => none) 200 [] "not json" "GET" "http://u").2.2
     (by decide) rfl⟩

/-- C8 counterexample: the structured payload is present (`some {}`)
but the body sent upstream is the opaque payload, because the source
tests Python truthiness and an empty dict is falsy. -/
theorem C8_counterexample :
    reqC8.json_data.isSome = true ∧
    ((make_request envSuccess 1 1 stInit reqC8).2.2).sent.map OutboundReq.body =
      [BodyRep.rawBody "payload"] ∧
    BodyRep.rawBody "payload" ≠ BodyRep.jsonBody [] := by
  exact ⟨rfl, rfl, by decide⟩

/-- C8 (amended): a NON-EMPTY structured payload takes precedence over
any opaque payload: every outbound body for POST/PUT is then the
structured payload serialized as JSON (and exactly one representation
is used). -/
theorem C8_structured_payload_precedence (env : Env) (clock clock2 : ℚ)
    (st : GState) (req : ProxyRequest) (kvs : List (String × String))
    (hm : pyUpper req.method = "POST" ∨ pyUpper req.method = "PUT")
    (hj : req.json_data = some kvs) (hne : kvs ≠ []) :
    ((make_request env clock clock2 st req).2.2).sent.all
      (fun ob => ob.body == BodyRep.jsonBody kvs) = true := by
  rw [make_request_run]
  dsimp only
  rw [List.all_eq_true]
  intro ob hob
  rcases retryAux_sent_mem env req (requestDataOf req) (requestHeadersOf req)
    MAX_RETRIES 0 _ ob hob with h | rfl
  · simp [initTrace] at h
  · have hr : requestDataOf req = some (PyData.dict kvs) := by
      cases kvs with
      | nil => exact absurd rfl hne
      | cons a as => simp [requestDataOf, pyTruthyDict, hj]
    rw [hr]
    rcases hm with h | h <;> rw [h] <;> simp [mkOutbound, bodyFor]

/-- C8 witness for the amended claim. -/
theorem C8_structured_payload_precedence_witness :
    pyUpper "post" = "POST" ∧
    ((make_request envSuccess 1 1 stInit
        { url := "http://u", method := "post", data := some (.str "zzz"),
          json_data := some [("a", "b")] }).2.2).sent.all
      (fun ob => ob.body == BodyRep.jsonBody [("a", "b")]) = true :=
  ⟨by decide,
   C8_structured_payload_precedence envSuccess 1 1 stInit
     { url := "http://u", method := "post", data := some (.str "zzz"),
       json_data := some [("a", "b")] } [("a", "b")]
     (Or.inl (by decide)) rfl (by decide)⟩

/-- C9: for GET and DELETE the outbound request carries no body, no
matter what payloads the request supplied. -/
theorem C9_get_delete_ignore_body (env : Env) (clock clock2 : ℚ) (st : GState)
    (req : ProxyRequest)
    (hm : pyUpper req.method = "GET" ∨ pyUpper req.method = "DELETE") :
    ((make_request env clock clock2 st req).2.2).sent.all
      (fun ob => ob.body == BodyRep.noBody) = true := by
  rw [make_request_run]
  dsimp only
  rw [List.all_eq_true]
  intro ob hob
  rcases retryAux_sent_mem env req (requestDataOf req) (requestHeadersOf req)
    MAX_RETRIES 0 _ ob hob with h | rfl
  · simp [initTrace] at h
  · rcases hm with h | h <;> rw [h] <;> simp [mkOutbound]

/-- C9 witness: a DELETE with both payloads set still sends no body. -/
theorem C9_get_delete_ignore_body_witness :
    pyUpper "DELETE" = "DELETE" ∧
    ((make_request envSuccess 1 1 stInit
        { url := "http://u", method := "DELETE", data := some (.str "x"),
          json_data := some [("a", "b")] }).2.2).sent.all
      (fun ob => ob.body == BodyRep.noBody) = true :=
  ⟨rfl,
   C9_get_delete_ignore_body envSuccess 1 1 stInit
     { url := "http://u", method := "DELETE", data := some (.str "x"),
       json_data := some [("a", "b")] }
     (Or.inr (by decide))⟩

/-- C10: a method whose uppercasing lands in the supported set is
dispatched (at least one upstream attempt, every attempt dispatches)
under the uppercased spelling; it is not rejected as unsupported. -/
theorem C10_method_uppercased (env : Env) (clock clock2 : ℚ) (st : GState)
    (req : ProxyRequest)
    (hm : supportedMethods.contains (pyUpper req.method) = true) :
    1 ≤ ((make_request env clock clock2 st req).2.2).attempts ∧
    ((make_request env clock clock2 st req).2.2).sent.length =
      ((make_request env clock clock2 st req).2.2).attempts ∧
    ((make_request env clock clock2 st req).2.2).sent.all
      (fun ob => ob.method == pyUpper req.method) = true := by
  obtain ⟨e1, e2⟩ := retryAux_counts env req (requestDataOf req) (requestHeadersOf req) hm
    MAX_RETRIES 0 (initTrace (rateLimitSleep clock st.last_request_time))
  rw [make_request_run]
  dsimp only
  have hta : ∀ rs, (initTrace rs).attempts = 0 := fun _ => rfl
  have hts : ∀ rs, (initTrace rs).sent = [] := fun _ => rfl
  refine ⟨?_, ?_, ?_⟩
  · rw [hta, (by decide : min MAX_RETRIES 1 = 1)] at e2
    omega
  · rw [hta, hts] at e1
    simp at e1
    omega
  · rw [List.all_eq_true]
    intro ob hob
    rcases retryAux_sent_mem env req (requestDataOf req) (requestHeadersOf req)
      MAX_RETRIES 0 _ ob hob with h | rfl
    · simp [initTrace] at h
    · simp [mkOutbound_method]

/-- C10 witness: the lowercase spelling "get" is dispatched as GET. -/
theorem C10_method_uppercased_witness :
    supportedMethods.contains (pyUpper reqGet.method) = true ∧
    1 ≤ ((make_request envSuccess 1 1 stInit reqGet).2.2).attempts ∧
    ((make_request envSuccess 1 1 stInit reqGet).2.2).sent.all
      (fun ob => ob.method == pyUpper reqGet.method) = true :=
  ⟨by decide,
   (C10_method_uppercased envSuccess 1 1 stInit reqGet (by decide)).1,
   (C10_method_uppercased envSuccess 1 1 stInit reqGet (by decide)).2.2⟩

/-- Anything in `dictSet hs k v` was already in `hs` or has key `k`. -/
theorem mem_dictSet (p : String × String) (hs : List (String × String))
    (k v : String) : p ∈ dictSet hs k v → p ∈ hs ∨ p.1 = k := by
  unfold dictSet
  split
  · intro h
    rcases List.mem_map.mp h with ⟨q, hq, he⟩
    by_cases hqk : q.1 = k
    · right
      rw [← he]
      simp [hqk]
    · left
      rw [← he]
      simp only [if_neg hqk]
      exact hq
  · intro h
    rcases List.mem_append.mp h with h1 | h1
    · exact Or.inl h1
    · right
      rw [List.mem_singleton.mp h1]

/-- Setting a key leaves the dict with that key present. -/
theorem dictSet_hasKey (hs : List (String × String)) (k v : String) :
    (dictSet hs k v).any (fun p => p.1 = k) = true := by
  unfold dictSet
  split
  · next hany =>
    rcases List.any_eq_true.mp hany with ⟨q, hq, hqk⟩
    have hq0 : q.1 = k := by simpa using hqk
    refine List.any_eq_true.mpr ⟨(k, v), List.mem_map.mpr ⟨q, hq, by simp [hq0]⟩, by simp⟩
  · exact List.any_eq_true.mpr ⟨(k, v), by simp, by simp⟩

/-- Setting a key preserves the presence of every key. -/
theorem dictSet_hasKey_mono (hs : List (String × String)) (k v k0 : String)
    (h : hs.any (fun p => p.1 = k0) = true) :
    (dictSet hs k v).any (fun p => p.1 = k0) = true := by
  unfold dictSet
  split
  · rcases List.any_eq_true.mp h with ⟨q, hq, hqk⟩
    have hq0 : q.1 = k0 := by simpa using hqk
    by_cases hqk2 : q.1 = k
    · refine List.any_eq_true.mpr ⟨(k, v), List.mem_map.mpr ⟨q, hq, by simp [hqk2]⟩, ?_⟩
      simp [← hqk2, hq0]
    · refine List.any_eq_true.mpr ⟨q, List.mem_map.mpr ⟨q, hq, by simp [hqk2]⟩, by simp [hq0]⟩
  · rcases List.any_eq_true.mp h with ⟨q, hq, hqk⟩
    exact List.any_eq_true.mpr ⟨q, List.mem_append_left _ hq, hqk⟩

/-- C7: assuming every upstream header key is lowercase (httpx
normalizes header names to lowercase when the response-header mapping
is built), the sanitized headers contain no key case-insensitively
equal to content-length, transfer-encoding or content-encoding, and
always contain the four proxy provenance headers. -/
theorem C7_sanitized_headers (hs : List (String × String)) (method url : String)
    (active : Int) (hlow : ∀ p ∈ hs, lowerKey p.1 = p.1) :
    (sanitizeHeaders hs method url active).all
      (fun p => !(hopByHopKeys.contains (lowerKey p.1))) = true ∧
    (sanitizeHeaders hs method url active).any (fun p => p.1 = "X-Proxy-Status") = true ∧
    (sanitizeHeaders hs method url active).any (fun p => p.1 = "X-Proxy-Method") = true ∧
    (sanitizeHeaders hs method url active).any (fun p => p.1 = "X-Proxy-URL") = true ∧
    (sanitizeHeaders hs method url active).any (fun p => p.1 = "X-Proxy-Active-Requests") = true := by
  unfold sanitizeHeaders
  refine ⟨?_, ?_, ?_, ?_, ?_⟩
  · rw [List.all_eq_true]
    intro p hp
    rcases mem_dictSet _ _ _ _ hp with hp | hk
    rotate_left
    · rw [hk]
      decide
    rcases mem_dictSet _ _ _ _ hp with hp | hk
    rotate_left
    · rw [hk]
      decide
    rcases mem_dictSet _ _ _ _ hp with hp | hk
    rotate_left
    · rw [hk]
      decide
    rcases mem_dictSet _ _ _ _ hp with hp | hk
    rotate_left
    · rw [hk]
      decide
    simp only [dictPop, List.mem_filter, decide_eq_true_eq] at hp
    obtain ⟨⟨⟨⟨⟨⟨hmem, k1⟩, k2⟩, k3⟩, k4⟩, k5⟩, k6⟩ := hp
    have hl := hlow p hmem
    rw [hl]
    simp [hopByHopKeys, k1, k3, k5]
  · exact dictSet_hasKey_mono _ _ _ _ (dictSet_hasKey_mono _ _ _ _
      (dictSet_hasKey_mono _ _ _ _ (dictSet_hasKey _ _ _)))
  · exact dictSet_hasKey_mono _ _ _ _ (dictSet_hasKey_mono _ _ _ _
      (dictSet_hasKey _ _ _))
  · exact dictSet_hasKey_mono _ _ _ _ (dictSet_hasKey _ _ _)
  · exact dictSet_hasKey _ _ _

/-- C7 witness: a concrete lowercase upstream header set. -/
theorem C7_sanitized_headers_witness :
    ([("content-length", "10"), ("content-encoding", "gzip"), ("x-served-by", "edge")].all
      (fun p => lowerKey p.1 == p.1)) = true ∧
    (sanitizeHeaders [("content-length", "10"), ("content-encoding", "gzip"), ("x-served-by", "edge")]
        "GET" "http://u" 2).all
      (fun p => !(hopByHopKeys.contains (lowerKey p.1))) = true ∧
    (sanitizeHeaders [("content-length", "10"), ("content-encoding", "gzip"), ("x-served-by", "edge")]
        "GET" "http://u" 2).any (fun p => p.1 = "X-Proxy-Status") = true :=
  ⟨by decide,
   (C7_sanitized_headers [("content-length", "10"), ("content-encoding", "gzip"), ("x-served-by", "edge")]
      "GET" "http://u" 2 (by decide)).1,
   (C7_sanitized_headers [("content-length", "10"), ("content-encoding", "gzip"), ("x-served-by", "edge")]
      "GET" "http://u" 2 (by decide)).2.1⟩
